import Mathlib

/-!
Verification of the stripe-service payment webhook fulfillment repository.

The development shallowly embeds the repository's data model and operations:

* `models.py` — the `users` table becomes `User`/`Store`; only the primary key
  and the boolean access flag are ever read or written by the code under
  verification, so the other columns are omitted.
* `src/fullfillment-service/fullfillment.py` — `fulfill_service` becomes
  `fulfill_service_v1`.
* `src/fullfillment-service/webhook-handler.py` — `fulfill_service`,
  `stripe_webhook`, `handle_invoice_payment_succeeded`,
  `handle_invoice_payment_failed`, `extract_user_id_from_invoice` become
  `fulfill_service_v2`, `stripe_webhook_wh`, and the correspondingly named
  functions below.
* `src/fullfillment-service/main.py` — `fulfill_order`, `stripe_webhook`,
  `handle_subscription_renewal`, `handle_failed_payment` become
  `fulfill_order`, `stripe_webhook_main`, and the correspondingly named
  functions below.
* `src/payment-link.py` — `create_payment_link` and `PRICE_IDS`.

Modelling conventions: the metadata strings that carry user identifiers
(`cartID`, `user_id`) are modelled as lists of character codes (`List Nat`),
so that Python's `str`/`int` decimal round trip is provable; Python `str(i)`
is `pyStrOfInt` and Python `int(s)` (which raises `ValueError` on a
non-numeric string, always caught by the callers modelled here) is
`pyToInt?`, covering the canonical decimal forms the issuer produces.
Stripe's `checkout.Session.retrieve` is modelled by passing the retrieval
result as an `Option Session` (`none` = the retrieval raised, which every
caller catches); `stripe.Webhook.construct_event` is modelled by passing an
`Except VerifyError Event` (the two exception kinds the SDK raises).
Database commits are modelled as always succeeding; each operation reports
how many commits it performed so that "no write occurred" is statable.
-/

/-- A row of the `users` table from `models.py`: the integer primary key and
the boolean access flag (`has_access` in `models.py`; the fulfillment
variants write it under the name `has_platform_access`). No other column is
read or written by the code under verification. -/
structure User where
  id : Int
  hasAccess : Bool
deriving DecidableEq

/-- The Entitlement Store: the persisted list of `users` rows. -/
abbrev Store := List User

/-- The ORM query `db.query(User).filter(User.id == uid).first()`: the first
row with the given primary key, if any. -/
def findUser (uid : Int) (db : Store) : Option User :=
  db.find? (fun u => u.id == uid)

/-- Mutating the ORM object returned by `.first()` and committing: the first
row with the given id gets its access flag set to `b`; every other row is
untouched. -/
def setAccess (uid : Int) (b : Bool) : Store → Store
  | [] => []
  | u :: rest =>
    if u.id = uid then { u with hasAccess := b } :: rest
    else u :: setAccess uid b rest

/-- Decimal digits of `n`, least significant first, computed with explicit
fuel (any `fuel ≥ n` gives the digit list of `n`). This is the digit
sequence underlying Python `str` on a natural number. -/
def digitsRev : Nat → Nat → List Nat
  | 0, _ => []
  | _ + 1, 0 => []
  | fuel + 1, n + 1 => ((n + 1) % 10) :: digitsRev fuel ((n + 1) / 10)

/-- Python `str(n)` for a natural number `n`, as a list of character codes
(code 48 is the digit zero). -/
def pyStrOfNat (n : Nat) : List Nat :=
  if n = 0 then [48] else ((digitsRev n n).map (fun d => d + 48)).reverse

/-- Python `str(i)` for an arbitrary integer: negatives get a leading minus
sign (character code 45). -/
def pyStrOfInt : Int → List Nat
  | Int.ofNat n => pyStrOfNat n
  | Int.negSucc n => 45 :: pyStrOfNat (n + 1)

/-- Whether `c` is the character code of a decimal digit. -/
def isDigitCode (c : Nat) : Bool := 48 ≤ c && c ≤ 57

/-- Python `int()` on a nonnegative decimal string: defined exactly on
nonempty all-digit strings, where it folds the digits most significant
first. -/
def pyToNat? (s : List Nat) : Option Nat :=
  if s ≠ [] ∧ s.all isDigitCode then
    some (s.foldl (fun a c => 10 * a + (c - 48)) 0)
  else none

/-- Python `int()` on a string in canonical decimal form: an optional
leading minus sign followed by digits; any other string raises
`ValueError`, modelled as `none`. -/
def pyToInt? : List Nat → Option Int
  | [] => none
  | c :: rest =>
    if c = 45 then (pyToNat? rest).map (fun m => -(Int.ofNat m))
    else (pyToNat? (c :: rest)).map Int.ofNat

/-- Python truthiness of an optional string, as used in the guards
`if not cart_id`, `if not user_id_str`, `if user_id_str`: a missing value
and an empty string are both falsy. Returns the string when truthy. -/
def truthy : Option (List Nat) → Option (List Nat)
  | none => none
  | some [] => none
  | some (c :: rest) => some (c :: rest)

/-- The slice of a Stripe Checkout Session that the fulfillment code reads:
`payment_status` and `metadata.get("cartID")`. -/
structure Session where
  payment_status : String
  cartID : Option (List Nat)
deriving DecidableEq

/-- Outcome of a fulfillment call: the boolean result returned to the
caller, the store after the call, and how many commits were issued. -/
structure FulfillOut where
  result : Bool
  db : Store
  commits : Nat
deriving DecidableEq

/-- `fulfill_service` from `fullfillment.py`. `sess?` is the result of
`stripe.checkout.Session.retrieve` (`none` when it raised). The generic
`except` clause turns every raised `ValueError` (missing `cartID`,
unparseable `cartID`, unknown user) into the result `False`; the write is
guarded by `if not user.has_access`. -/
def fulfill_service_v1 (_sid : String) (sess? : Option Session) (db : Store) : FulfillOut :=
  match sess? with
  | none => ⟨false, db, 0⟩
  | some s =>
    if s.payment_status = "paid" then
      match truthy s.cartID with
      | none => ⟨false, db, 0⟩
      | some cid =>
        match pyToInt? cid with
        | none => ⟨false, db, 0⟩
        | some uid =>
          match findUser uid db with
          | none => ⟨false, db, 0⟩
          | some u =>
            if u.hasAccess then ⟨true, db, 0⟩
            else ⟨true, setAccess uid true db, 1⟩
    else ⟨false, db, 0⟩

/-- `fulfill_service` from `webhook-handler.py`: same resolution chain as
`fulfill_service_v1`, but the write `user.has_platform_access = True`
followed by `db.commit()` is unconditional — the already-fulfilled check is
present only as a comment in the source. The commit is modelled as
succeeding. -/
def fulfill_service_v2 (_sid : String) (sess? : Option Session) (db : Store) : FulfillOut :=
  match sess? with
  | none => ⟨false, db, 0⟩
  | some s =>
    if s.payment_status = "paid" then
      match truthy s.cartID with
      | none => ⟨false, db, 0⟩
      | some cid =>
        match pyToInt? cid with
        | none => ⟨false, db, 0⟩
        | some uid =>
          match findUser uid db with
          | none => ⟨false, db, 0⟩
          | some _ => ⟨true, setAccess uid true db, 1⟩
    else ⟨false, db, 0⟩

/-- Outcome of `fulfill_order` from `main.py`, which returns `None`: only
the store and the commit count are observable. -/
structure OrderOut where
  db : Store
  commits : Nat
deriving DecidableEq

/-- The placeholder duplicate-suppression check from `main.py` and
`webhook-handler.py`; the source body is `return False`. -/
def is_session_already_fulfilled (_sid : String) : Bool := false

/-- The placeholder fulfillment ledger writer from `main.py` and
`webhook-handler.py`; the source body is `pass`, so the store is returned
unchanged. -/
def mark_session_as_fulfilled (_sid : String) (db : Store) : Store := db

/-- `fulfill_order` from `main.py`: the same resolution chain, an inert
already-fulfilled check, then an unconditional write and commit followed by
the inert ledger write. Every early exit is a plain `return`. -/
def fulfill_order (sid : String) (sess? : Option Session) (db : Store) : OrderOut :=
  match sess? with
  | none => ⟨db, 0⟩
  | some s =>
    if s.payment_status = "paid" then
      match truthy s.cartID with
      | none => ⟨db, 0⟩
      | some cid =>
        match pyToInt? cid with
        | none => ⟨db, 0⟩
        | some uid =>
          if is_session_already_fulfilled sid then ⟨db, 0⟩
          else
            match findUser uid db with
            | none => ⟨db, 0⟩
            | some _ => ⟨mark_session_as_fulfilled sid (setAccess uid true db), 1⟩
    else ⟨db, 0⟩

/-- The slice of a Stripe invoice object that the subscription handlers
read: `metadata.get("user_id")`, `metadata.get("cartID")` (present in the
model only to state that resolution never reads it) and
`invoice.get("subscription")` (only ever fed to an unimplemented
fallback). -/
structure Invoice where
  user_id : Option (List Nat)
  cartID : Option (List Nat)
  subscription : Option String
deriving DecidableEq

/-- `extract_user_id_from_invoice` from `webhook-handler.py`: if the
invoice metadata has a truthy `user_id`, parse it (`None` on
`ValueError`); otherwise the subscription lookup is `pass` and the
customer lookup is commented out, so the function falls through to
`return None`. -/
def extract_user_id_from_invoice (inv : Invoice) : Option Int :=
  match truthy inv.user_id with
  | some s => pyToInt? s
  | none => none

/-- Outcome of an invoice handler (the Python functions return `None`):
the store and the commit count. -/
structure HandlerOut where
  db : Store
  commits : Nat
deriving DecidableEq

/-- Python truthiness of the optional integer the invoice handlers get
back from `extract_user_id_from_invoice`, as used in their guards
`if not user_id:`: both `None` and the integer 0 are falsy, so a resolved
identifier of 0 is treated as not determined. Returns the identifier when
truthy. -/
def truthyInt : Option Int → Option Int
  | none => none
  | some i => if i = 0 then none else some i

/-- `handle_invoice_payment_succeeded` from `webhook-handler.py`: resolve
the user from the invoice, guarded by `if not user_id:` (so `None` and a
resolved 0 both log and return); on success write the access flag true and
commit (unconditionally); a missing user also logs and returns. -/
def handle_invoice_payment_succeeded (inv : Invoice) (db : Store) : HandlerOut :=
  match truthyInt (extract_user_id_from_invoice inv) with
  | none => ⟨db, 0⟩
  | some uid =>
    match findUser uid db with
    | none => ⟨db, 0⟩
    | some _ => ⟨setAccess uid true db, 1⟩

/-- `handle_invoice_payment_failed` from `webhook-handler.py`: resolve the
user from the invoice, guarded by `if not user_id:` (so `None` and a
resolved 0 both log and return); on success write the access flag false
and commit; a missing user also logs and returns. -/
def handle_invoice_payment_failed (inv : Invoice) (db : Store) : HandlerOut :=
  match truthyInt (extract_user_id_from_invoice inv) with
  | none => ⟨db, 0⟩
  | some uid =>
    match findUser uid db with
    | none => ⟨db, 0⟩
    | some _ => ⟨setAccess uid false db, 1⟩

/-- `handle_subscription_renewal` from `main.py`: the body only logs
(`logger.info`); no store access. -/
def handle_subscription_renewal (_inv : Invoice) (db : Store) : HandlerOut := ⟨db, 0⟩

/-- `handle_failed_payment` from `main.py`: the body only logs
(`logger.warning`); the revocation logic is a comment. No store access. -/
def handle_failed_payment (_inv : Invoice) (db : Store) : HandlerOut := ⟨db, 0⟩

/-- The two exception kinds `stripe.Webhook.construct_event` raises:
`ValueError` for a body that does not parse and
`stripe.error.SignatureVerificationError` for a signature mismatch. -/
inductive VerifyError where
  | invalidPayload
  | invalidSignature
deriving DecidableEq

/-- A verified webhook event, routed by its `type` tag. The two checkout
completion types (`checkout.session.completed`,
`checkout.session.async_payment_succeeded`) are handled identically by
both dispatchers and share a constructor carrying the session id and the
retrieval result; invoice events carry the invoice payload. -/
inductive Event where
  | checkout (sid : String) (sess? : Option Session)
  | invoicePaymentSucceeded (inv : Invoice)
  | invoicePaymentFailed (inv : Invoice)
  | scheduleCompleted
  | scheduleCreated
  | other
deriving DecidableEq

/-- The HTTP outcome of a webhook endpoint: the success acknowledgment
JSON, an `HTTPException` with status code and detail, or an exception that
escaped the handler entirely (surfaced by the framework as a 500 internal
server error). -/
inductive Response where
  | ok
  | httpError (code : Nat) (detail : String)
  | uncaughtException
deriving DecidableEq

/-- `stripe_webhook` from `webhook-handler.py`. Verification failures:
only `SignatureVerificationError` is caught (mapped to a 400); a
`ValueError` from an unparseable body escapes the handler. Routing: the
checkout types call `fulfill_service` synchronously and raise a 500 when
it returns `False`; invoice events call their handlers; schedule events
and unrecognized types only log. -/
def stripe_webhook_wh (ev? : Except VerifyError Event) (db : Store) : Response × Store :=
  match ev? with
  | Except.error VerifyError.invalidSignature =>
      (Response.httpError 400 "Invalid webhook signature", db)
  | Except.error VerifyError.invalidPayload => (Response.uncaughtException, db)
  | Except.ok ev =>
    match ev with
    | Event.checkout sid sess? =>
      let o := fulfill_service_v2 sid sess? db
      if o.result then (Response.ok, o.db)
      else (Response.httpError 500 "Failed to fulfill the service", o.db)
    | Event.invoicePaymentSucceeded inv =>
        (Response.ok, (handle_invoice_payment_succeeded inv db).db)
    | Event.invoicePaymentFailed inv =>
        (Response.ok, (handle_invoice_payment_failed inv db).db)
    | Event.scheduleCompleted => (Response.ok, db)
    | Event.scheduleCreated => (Response.ok, db)
    | Event.other => (Response.ok, db)

/-- `stripe_webhook` from `main.py`. Both verification failures are caught
and mapped to 400 responses with distinct details. Routing: the checkout
types schedule `fulfill_order` as a background task (its store effect lands
after the response, which is the success acknowledgment regardless);
invoice events go to the log-only handlers; everything else is ignored. -/
def stripe_webhook_main (ev? : Except VerifyError Event) (db : Store) : Response × Store :=
  match ev? with
  | Except.error VerifyError.invalidPayload => (Response.httpError 400 "Invalid payload", db)
  | Except.error VerifyError.invalidSignature => (Response.httpError 400 "Invalid signature", db)
  | Except.ok ev =>
    match ev with
    | Event.checkout sid sess? => (Response.ok, (fulfill_order sid sess? db).db)
    | Event.invoicePaymentSucceeded inv => (Response.ok, (handle_subscription_renewal inv db).db)
    | Event.invoicePaymentFailed inv => (Response.ok, (handle_failed_payment inv db).db)
    | Event.scheduleCompleted => (Response.ok, db)
    | Event.scheduleCreated => (Response.ok, db)
    | Event.other => (Response.ok, db)

/-- The request body of the payment-link endpoint in `payment-link.py`. -/
structure LinkRequest where
  user_id : Int
  plan : String
deriving DecidableEq

/-- The observable outcome of `create_payment_link`: a created link (the
provider price id used and the `cartID` metadata attached to it) or an
`HTTPException` with status code and detail. -/
inductive LinkResult where
  | created (priceId : String) (cartID : List Nat)
  | httpError (code : Nat) (detail : String)
deriving DecidableEq

/-- The static `PRICE_IDS` table from `payment-link.py`, as a lookup from
plan name to provider price id. -/
def PRICE_IDS (plan : String) : Option String :=
  if plan = "bronze" then some "price_1QhzfBIZhbjcBaqMHUSuptHA"
  else if plan = "silver" then some "price_1QhzfAIZhbjcBaqMSilverXXX"
  else if plan = "gold" then some "price_1QhzfAIZhbjcBaqMGoldXXX"
  else none

/-- `create_payment_link` from `payment-link.py`: 404 when the user does
not exist, then 400 when the plan is not a `PRICE_IDS` key, otherwise the
provider link is created with `metadata = ("cartID", str(request.user_id))`.
The provider call is modelled as succeeding; the store is only read. -/
def create_payment_link (req : LinkRequest) (db : Store) : LinkResult × Store :=
  match findUser req.user_id db with
  | none => (LinkResult.httpError 404 "User not found", db)
  | some _ =>
    match PRICE_IDS req.plan with
    | none => (LinkResult.httpError 400 "Invalid subscription plan", db)
    | some pid => (LinkResult.created pid (pyStrOfInt req.user_id), db)

theorem digitsRev_foldr (fuel : Nat) : ∀ n : Nat, n ≤ fuel →
    (digitsRev fuel n).foldr (fun d a => 10 * a + d) 0 = n := by
  induction fuel with
  | zero =>
    intro n hn
    have : n = 0 := Nat.le_zero.mp hn
    subst this
    rfl
  | succ f ih =>
    intro n hn
    match n with
    | 0 => rfl
    | m + 1 =>
      have hdiv : (m + 1) / 10 ≤ f := by
        have := Nat.div_lt_self (Nat.succ_pos m) (by norm_num : 1 < 10)
        omega
      simp only [digitsRev, List.foldr_cons, ih _ hdiv]
      omega

theorem digitsRev_lt (fuel : Nat) : ∀ n c : Nat, c ∈ digitsRev fuel n → c < 10 := by
  induction fuel with
  | zero =>
    intro n c hc
    simp [digitsRev] at hc
  | succ f ih =>
    intro n c hc
    match n with
    | 0 => simp [digitsRev] at hc
    | m + 1 =>
      simp only [digitsRev, List.mem_cons] at hc
      rcases hc with h | h
      · subst h
        exact Nat.mod_lt _ (by norm_num)
      · exact ih _ _ h

theorem pyToNat?_pyStrOfNat (n : Nat) : pyToNat? (pyStrOfNat n) = some n := by
  match n with
  | 0 => rfl
  | m + 1 =>
    have hall : ∀ c ∈ ((digitsRev (m + 1) (m + 1)).map (fun d => d + 48)).reverse,
        isDigitCode c = true := by
      intro c hc
      simp only [List.mem_reverse, List.mem_map] at hc
      obtain ⟨d, hd, rfl⟩ := hc
      have := digitsRev_lt (m + 1) (m + 1) d hd
      simp only [isDigitCode, Bool.and_eq_true, decide_eq_true_eq]
      omega
    have hcond : (((digitsRev (m + 1) (m + 1)).map (fun d => d + 48)).reverse ≠ [] ∧
        (((digitsRev (m + 1) (m + 1)).map (fun d => d + 48)).reverse).all isDigitCode) := by
      constructor
      · simp [digitsRev]
      · rw [List.all_eq_true]
        exact hall
    simp only [pyStrOfNat, if_neg (Nat.succ_ne_zero m)]
    unfold pyToNat?
    rw [if_pos hcond]
    congr 1
    rw [List.foldl_reverse, List.foldr_map]
    simp only [Nat.add_sub_cancel]
    exact digitsRev_foldr (m + 1) (m + 1) (Nat.le_refl _)

theorem pyStrOfNat_mem_ge (n c : Nat) (hc : c ∈ pyStrOfNat n) : 48 ≤ c := by
  unfold pyStrOfNat at hc
  by_cases h0 : n = 0
  · subst h0
    simp at hc
    omega
  · rw [if_neg h0] at hc
    simp only [List.mem_reverse, List.mem_map] at hc
    obtain ⟨d, _, rfl⟩ := hc
    omega

theorem pyToInt?_pyStrOfInt (i : Int) : pyToInt? (pyStrOfInt i) = some i := by
  match i with
  | Int.ofNat n =>
    cases hs : pyStrOfNat n with
    | nil =>
      have h := pyToNat?_pyStrOfNat n
      rw [hs] at h
      simp [pyToNat?] at h
    | cons c rest =>
      have hc : 48 ≤ c := pyStrOfNat_mem_ge n c (by rw [hs]; exact List.mem_cons_self c rest)
      have hround := pyToNat?_pyStrOfNat n
      rw [hs] at hround
      show pyToInt? (pyStrOfNat n) = some (Int.ofNat n)
      rw [hs]
      simp only [pyToInt?]
      rw [if_neg (by omega : ¬ c = 45), hround]
      rfl
  | Int.negSucc n =>
    show pyToInt? (45 :: pyStrOfNat (n + 1)) = some (Int.negSucc n)
    simp only [pyToInt?]
    rw [if_pos trivial, pyToNat?_pyStrOfNat]
    simp [Int.negSucc_eq]

theorem findUser_id (uid : Int) (db : Store) (u : User)
    (h : findUser uid db = some u) : u.id = uid := by
  have hp := List.find?_some h
  simpa using hp

theorem findUser_setAccess (uid : Int) (b : Bool) (db : Store) :
    findUser uid (setAccess uid b db) =
      (findUser uid db).map (fun u => { u with hasAccess := b }) := by
  induction db with
  | nil => rfl
  | cons u rest ih =>
    by_cases h : u.id = uid
    · simp [setAccess, findUser, List.find?_cons, h]
    · have hb : (u.id == uid) = false := by simp [h]
      simp only [setAccess, if_neg h]
      simp only [findUser, List.find?_cons] at ih ⊢
      simp [hb, ih]

theorem mem_setAccess_of_ne (uid : Int) (b : Bool) (db : Store) (v : User)
    (hv : v.id ≠ uid) : v ∈ setAccess uid b db ↔ v ∈ db := by
  induction db with
  | nil => simp [setAccess]
  | cons u rest ih =>
    by_cases h : u.id = uid
    · simp only [setAccess, if_pos h, List.mem_cons]
      constructor
      · rintro (rfl | hm)
        · exact absurd h hv
        · exact Or.inr hm
      · rintro (rfl | hm)
        · exact absurd h hv
        · exact Or.inr hm
    · simp only [setAccess, if_neg h, List.mem_cons, ih]

theorem setAccess_setAccess (uid : Int) (b : Bool) (db : Store) :
    setAccess uid b (setAccess uid b db) = setAccess uid b db := by
  induction db with
  | nil => rfl
  | cons u rest ih =>
    by_cases h : u.id = uid
    · simp [setAccess, h]
    · simp [setAccess, h, ih]

theorem setAccess_eq_self (uid : Int) (db : Store) (u : User)
    (hfind : findUser uid db = some u) (hacc : u.hasAccess = true) :
    setAccess uid true db = db := by
  induction db with
  | nil => simp [findUser] at hfind
  | cons v rest ih =>
    by_cases h : v.id = uid
    · have hv : v = u := by
        simp [findUser, List.find?_cons, h] at hfind
        exact hfind
      subst hv
      simp only [setAccess, if_pos h]
      congr 1
      cases v
      simp_all
    · simp only [setAccess, if_neg h]
      congr 1
      apply ih
      simpa [findUser, List.find?_cons, h] using hfind

theorem fulfill_service_v1_resolved (sid : String) (s : Session) (db : Store)
    (cid : List Nat) (uid : Int) (u : User)
    (hpaid : s.payment_status = "paid")
    (hcart : truthy s.cartID = some cid)
    (hparse : pyToInt? cid = some uid)
    (hfind : findUser uid db = some u) :
    fulfill_service_v1 sid (some s) db =
      if u.hasAccess then ⟨true, db, 0⟩ else ⟨true, setAccess uid true db, 1⟩ := by
  simp [fulfill_service_v1, hpaid, hcart, hparse, hfind]

theorem fulfill_service_v2_resolved (sid : String) (s : Session) (db : Store)
    (cid : List Nat) (uid : Int) (u : User)
    (hpaid : s.payment_status = "paid")
    (hcart : truthy s.cartID = some cid)
    (hparse : pyToInt? cid = some uid)
    (hfind : findUser uid db = some u) :
    fulfill_service_v2 sid (some s) db = ⟨true, setAccess uid true db, 1⟩ := by
  simp [fulfill_service_v2, hpaid, hcart, hparse, hfind]

theorem fulfill_order_resolved (sid : String) (s : Session) (db : Store)
    (cid : List Nat) (uid : Int) (u : User)
    (hpaid : s.payment_status = "paid")
    (hcart : truthy s.cartID = some cid)
    (hparse : pyToInt? cid = some uid)
    (hfind : findUser uid db = some u) :
    fulfill_order sid (some s) db = ⟨setAccess uid true db, 1⟩ := by
  simp [fulfill_order, hpaid, hcart, hparse, hfind,
    is_session_already_fulfilled, mark_session_as_fulfilled]

/-- C1: for every checkout session with payment status "paid" whose cartID
metadata parses to the identifier of an existing user, running the
fulfillment operation twice (in any of the three variants) leaves the same
Entitlement Store end state as running it once, the resolved user's access
flag is true after one run, and membership of every other user's row is
unchanged. -/
theorem C1_fulfillment_idempotent (sid : String) (s : Session) (db : Store)
    (cid : List Nat) (uid : Int) (u : User)
    (hpaid : s.payment_status = "paid")
    (hcart : truthy s.cartID = some cid)
    (hparse : pyToInt? cid = some uid)
    (hfind : findUser uid db = some u) :
    ((fulfill_service_v1 sid (some s) (fulfill_service_v1 sid (some s) db).db).db =
        (fulfill_service_v1 sid (some s) db).db ∧
      findUser uid (fulfill_service_v1 sid (some s) db).db = some { u with hasAccess := true } ∧
      ∀ v : User, v.id ≠ uid → (v ∈ (fulfill_service_v1 sid (some s) db).db ↔ v ∈ db)) ∧
    ((fulfill_service_v2 sid (some s) (fulfill_service_v2 sid (some s) db).db).db =
        (fulfill_service_v2 sid (some s) db).db ∧
      findUser uid (fulfill_service_v2 sid (some s) db).db = some { u with hasAccess := true } ∧
      ∀ v : User, v.id ≠ uid → (v ∈ (fulfill_service_v2 sid (some s) db).db ↔ v ∈ db)) ∧
    ((fulfill_order sid (some s) (fulfill_order sid (some s) db).db).db =
        (fulfill_order sid (some s) db).db ∧
      findUser uid (fulfill_order sid (some s) db).db = some { u with hasAccess := true } ∧
      ∀ v : User, v.id ≠ uid → (v ∈ (fulfill_order sid (some s) db).db ↔ v ∈ db)) := by
  have hfind' : findUser uid (setAccess uid true db) = some { u with hasAccess := true } := by
    rw [findUser_setAccess, hfind]
    rfl
  refine ⟨?_, ?_, ?_⟩
  · by_cases hacc : u.hasAccess
    · have hu : ({ u with hasAccess := true } : User) = u := by
        cases u
        simp_all
      have h1 : fulfill_service_v1 sid (some s) db = ⟨true, db, 0⟩ := by
        rw [fulfill_service_v1_resolved sid s db cid uid u hpaid hcart hparse hfind,
          if_pos hacc]
      refine ⟨by simp [h1], by simp [h1, hu, hfind], ?_⟩
      intro v _
      simp [h1]
    · have h1 : fulfill_service_v1 sid (some s) db = ⟨true, setAccess uid true db, 1⟩ := by
        rw [fulfill_service_v1_resolved sid s db cid uid u hpaid hcart hparse hfind,
          if_neg hacc]
      have h2 : fulfill_service_v1 sid (some s) (setAccess uid true db) =
          ⟨true, setAccess uid true db, 0⟩ := by
        rw [fulfill_service_v1_resolved sid s (setAccess uid true db) cid uid
          { u with hasAccess := true } hpaid hcart hparse hfind']
        rfl
      refine ⟨by simp [h1, h2], by simp [h1, hfind'], ?_⟩
      intro v hv
      simp only [h1]
      exact mem_setAccess_of_ne uid true db v hv
  · have h1 : fulfill_service_v2 sid (some s) db = ⟨true, setAccess uid true db, 1⟩ :=
      fulfill_service_v2_resolved sid s db cid uid u hpaid hcart hparse hfind
    have h2 : fulfill_service_v2 sid (some s) (setAccess uid true db) =
        ⟨true, setAccess uid true (setAccess uid true db), 1⟩ :=
      fulfill_service_v2_resolved sid s (setAccess uid true db) cid uid
        { u with hasAccess := true } hpaid hcart hparse hfind'
    refine ⟨by simp [h1, h2, setAccess_setAccess], by simp [h1, hfind'], ?_⟩
    intro v hv
    simp only [h1]
    exact mem_setAccess_of_ne uid true db v hv
  · have h1 : fulfill_order sid (some s) db = ⟨setAccess uid true db, 1⟩ :=
      fulfill_order_resolved sid s db cid uid u hpaid hcart hparse hfind
    have h2 : fulfill_order sid (some s) (setAccess uid true db) =
        ⟨setAccess uid true (setAccess uid true db), 1⟩ :=
      fulfill_order_resolved sid s (setAccess uid true db) cid uid
        { u with hasAccess := true } hpaid hcart hparse hfind'
    refine ⟨by simp [h1, h2, setAccess_setAccess], by simp [h1, hfind'], ?_⟩
    intro v hv
    simp only [h1]
    exact mem_setAccess_of_ne uid true db v hv

/-- Witness for C1: session cs_1 paid with cartID "42" (codes 52, 50) over a
store holding user 42 without access. -/
theorem C1_witness :
    ((⟨"paid", some [52, 50]⟩ : Session).payment_status = "paid" ∧
      truthy (⟨"paid", some [52, 50]⟩ : Session).cartID = some [52, 50] ∧
      pyToInt? [52, 50] = some 42 ∧
      findUser 42 [⟨42, false⟩] = some ⟨42, false⟩) ∧
    (((fulfill_service_v1 "cs_1" (some ⟨"paid", some [52, 50]⟩)
          (fulfill_service_v1 "cs_1" (some ⟨"paid", some [52, 50]⟩) [⟨42, false⟩]).db).db =
        (fulfill_service_v1 "cs_1" (some ⟨"paid", some [52, 50]⟩) [⟨42, false⟩]).db ∧
      findUser 42 (fulfill_service_v1 "cs_1" (some ⟨"paid", some [52, 50]⟩) [⟨42, false⟩]).db =
        some { id := 42, hasAccess := true } ∧
      ∀ v : User, v.id ≠ 42 →
        (v ∈ (fulfill_service_v1 "cs_1" (some ⟨"paid", some [52, 50]⟩) [⟨42, false⟩]).db ↔
          v ∈ [(⟨42, false⟩ : User)])) ∧
    ((fulfill_service_v2 "cs_1" (some ⟨"paid", some [52, 50]⟩)
          (fulfill_service_v2 "cs_1" (some ⟨"paid", some [52, 50]⟩) [⟨42, false⟩]).db).db =
        (fulfill_service_v2 "cs_1" (some ⟨"paid", some [52, 50]⟩) [⟨42, false⟩]).db ∧
      findUser 42 (fulfill_service_v2 "cs_1" (some ⟨"paid", some [52, 50]⟩) [⟨42, false⟩]).db =
        some { id := 42, hasAccess := true } ∧
      ∀ v : User, v.id ≠ 42 →
        (v ∈ (fulfill_service_v2 "cs_1" (some ⟨"paid", some [52, 50]⟩) [⟨42, false⟩]).db ↔
          v ∈ [(⟨42, false⟩ : User)])) ∧
    ((fulfill_order "cs_1" (some ⟨"paid", some [52, 50]⟩)
          (fulfill_order "cs_1" (some ⟨"paid", some [52, 50]⟩) [⟨42, false⟩]).db).db =
        (fulfill_order "cs_1" (some ⟨"paid", some [52, 50]⟩) [⟨42, false⟩]).db ∧
      findUser 42 (fulfill_order "cs_1" (some ⟨"paid", some [52, 50]⟩) [⟨42, false⟩]).db =
        some { id := 42, hasAccess := true } ∧
      ∀ v : User, v.id ≠ 42 →
        (v ∈ (fulfill_order "cs_1" (some ⟨"paid", some [52, 50]⟩) [⟨42, false⟩]).db ↔
          v ∈ [(⟨42, false⟩ : User)]))) :=
  ⟨⟨by decide, by decide, by decide, by decide⟩,
    C1_fulfillment_idempotent "cs_1" ⟨"paid", some [52, 50]⟩ [⟨42, false⟩] [52, 50] 42
      ⟨42, false⟩ (by decide) (by decide) (by decide) (by decide)⟩

/-- C2 counterexample: session cs_replay is paid, its cartID "7" (code 55)
resolves to user 7 whose access flag is already true, yet `fulfill_service`
from `webhook-handler.py` still performs a store write and commit (commit
count 1), and `fulfill_service` from `fullfillment.py` returns the plain
success value True — the same value a fresh fulfillment returns — not a
distinct already-fulfilled result. -/
theorem C2_counterexample :
    findUser 7 [⟨7, true⟩] = some ⟨7, true⟩ ∧
    fulfill_service_v2 "cs_replay" (some ⟨"paid", some [55]⟩) [⟨7, true⟩] =
      ⟨true, [⟨7, true⟩], 1⟩ ∧
    (fulfill_service_v1 "cs_replay" (some ⟨"paid", some [55]⟩) [⟨7, true⟩]).result =
      (fulfill_service_v1 "cs_first" (some ⟨"paid", some [55]⟩) [⟨7, false⟩]).result := by
  decide

/-- C2 (amended): when the resolved user's access flag is already true, the
`fullfillment.py` variant performs no store write and no commit and returns
the same success result True as a fresh fulfillment (there is no distinct
already-fulfilled value anywhere in the code), while the
`webhook-handler.py` variant re-writes the flag to the value it already has
and commits once more, leaving the store state unchanged. -/
theorem C2_already_fulfilled (sid : String) (s : Session) (db : Store)
    (cid : List Nat) (uid : Int) (u : User)
    (hpaid : s.payment_status = "paid")
    (hcart : truthy s.cartID = some cid)
    (hparse : pyToInt? cid = some uid)
    (hfind : findUser uid db = some u)
    (hacc : u.hasAccess = true) :
    fulfill_service_v1 sid (some s) db = ⟨true, db, 0⟩ ∧
    fulfill_service_v2 sid (some s) db = ⟨true, db, 1⟩ := by
  constructor
  · rw [fulfill_service_v1_resolved sid s db cid uid u hpaid hcart hparse hfind,
      if_pos hacc]
  · rw [fulfill_service_v2_resolved sid s db cid uid u hpaid hcart hparse hfind,
      setAccess_eq_self uid db u hfind hacc]

/-- Witness for C2 (amended) at the replayed session of the counterexample. -/
theorem C2_witness :
    ((⟨"paid", some [55]⟩ : Session).payment_status = "paid" ∧
      truthy (⟨"paid", some [55]⟩ : Session).cartID = some [55] ∧
      pyToInt? [55] = some 7 ∧
      findUser 7 [⟨7, true⟩] = some ⟨7, true⟩ ∧
      (⟨7, true⟩ : User).hasAccess = true) ∧
    (fulfill_service_v1 "cs_replay" (some ⟨"paid", some [55]⟩) [⟨7, true⟩] =
        ⟨true, [⟨7, true⟩], 0⟩ ∧
      fulfill_service_v2 "cs_replay" (some ⟨"paid", some [55]⟩) [⟨7, true⟩] =
        ⟨true, [⟨7, true⟩], 1⟩) :=
  ⟨⟨by decide, by decide, by decide, by decide, by decide⟩,
    C2_already_fulfilled "cs_replay" ⟨"paid", some [55]⟩ [⟨7, true⟩] [55] 7 ⟨7, true⟩
      (by decide) (by decide) (by decide) (by decide) (by decide)⟩

/-- C3: for every checkout session whose payment status is not "paid", all
three fulfillment variants return the not-fulfilled result (False for the
two value-returning variants, a bare early return for `fulfill_order`),
raise nothing, leave the Entitlement Store unchanged, and issue no
commit. -/
theorem C3_not_paid_no_mutation (sid : String) (s : Session) (db : Store)
    (h : s.payment_status ≠ "paid") :
    fulfill_service_v1 sid (some s) db = ⟨false, db, 0⟩ ∧
    fulfill_service_v2 sid (some s) db = ⟨false, db, 0⟩ ∧
    fulfill_order sid (some s) db = ⟨db, 0⟩ := by
  refine ⟨?_, ?_, ?_⟩
  · simp [fulfill_service_v1, h]
  · simp [fulfill_service_v2, h]
  · simp [fulfill_order, h]

/-- Witness for C3: an unpaid session over a store holding user 42. -/
theorem C3_witness :
    (⟨"unpaid", some [52, 50]⟩ : Session).payment_status ≠ "paid" ∧
    (fulfill_service_v1 "cs_1" (some ⟨"unpaid", some [52, 50]⟩) [⟨42, false⟩] =
        ⟨false, [⟨42, false⟩], 0⟩ ∧
      fulfill_service_v2 "cs_1" (some ⟨"unpaid", some [52, 50]⟩) [⟨42, false⟩] =
        ⟨false, [⟨42, false⟩], 0⟩ ∧
      fulfill_order "cs_1" (some ⟨"unpaid", some [52, 50]⟩) [⟨42, false⟩] =
        ⟨[⟨42, false⟩], 0⟩) :=
  ⟨by decide,
    C3_not_paid_no_mutation "cs_1" ⟨"unpaid", some [52, 50]⟩ [⟨42, false⟩] (by decide)⟩

/-- C4 counterexample: a webhook body that does not parse, delivered to the
`webhook-handler.py` endpoint, is not answered with an HTTP 400 — the
`ValueError` raised by `construct_event` is not caught there, so the
request ends in an uncaught exception (a framework 500), unlike the 400
the claim requires. The store is still untouched. -/
theorem C4_counterexample :
    stripe_webhook_wh (Except.error VerifyError.invalidPayload) [] =
      (Response.uncaughtException, ([] : Store)) ∧
    Response.uncaughtException ≠ Response.httpError 400 "Invalid payload" := by
  decide

/-- C4 (amended): on verification failure no store access happens and no
handler runs in either endpoint; the `main.py` endpoint answers 400 for
both an unparseable body and a bad signature, while the
`webhook-handler.py` endpoint answers 400 only for a bad signature and
lets the invalid-payload `ValueError` escape as an uncaught exception. -/
theorem C4_verification_failure_responses (db : Store) :
    stripe_webhook_main (Except.error VerifyError.invalidPayload) db =
      (Response.httpError 400 "Invalid payload", db) ∧
    stripe_webhook_main (Except.error VerifyError.invalidSignature) db =
      (Response.httpError 400 "Invalid signature", db) ∧
    stripe_webhook_wh (Except.error VerifyError.invalidSignature) db =
      (Response.httpError 400 "Invalid webhook signature", db) ∧
    stripe_webhook_wh (Except.error VerifyError.invalidPayload) db =
      (Response.uncaughtException, db) :=
  ⟨rfl, rfl, rfl, rfl⟩

/-- C5 counterexample: an invoice-payment-failed event whose metadata
user_id "1" (code 49) resolves to existing user 1 with access currently
true, handled by `handle_failed_payment` from `main.py`: the handler only
logs, so the access flag stays true and no commit happens — the claimed
revocation does not occur on this handling path. -/
theorem C5_counterexample :
    extract_user_id_from_invoice ⟨some [49], none, none⟩ = some 1 ∧
    findUser 1 [⟨1, true⟩] = some ⟨1, true⟩ ∧
    handle_failed_payment ⟨some [49], none, none⟩ [⟨1, true⟩] = ⟨[⟨1, true⟩], 0⟩ := by
  decide

/-- C5 (amended): for an invoice-payment-failed event resolving to an
existing user with a nonzero identifier and access currently true (the
handler's guard `if not user_id:` discards both an unresolved id and the
falsy integer 0), the `webhook-handler.py` handler
`handle_invoice_payment_failed` sets the flag false immediately (one write
and commit, no grace period), while the `main.py` handler
`handle_failed_payment` only logs and leaves the store unchanged. -/
theorem C5_revocation (inv : Invoice) (db : Store) (uid : Int) (u : User)
    (hres : extract_user_id_from_invoice inv = some uid)
    (hnz : uid ≠ 0)
    (hfind : findUser uid db = some u)
    (hacc : u.hasAccess = true) :
    handle_invoice_payment_failed inv db = ⟨setAccess uid false db, 1⟩ ∧
    findUser uid (handle_invoice_payment_failed inv db).db =
      some { u with hasAccess := false } ∧
    handle_failed_payment inv db = ⟨db, 0⟩ := by
  have h1 : handle_invoice_payment_failed inv db = ⟨setAccess uid false db, 1⟩ := by
    simp [handle_invoice_payment_failed, truthyInt, hres, hnz, hfind]
  refine ⟨h1, ?_, rfl⟩
  simp only [h1]
  rw [findUser_setAccess, hfind]
  rfl

/-- Witness for C5 (amended) at the invoice and store of the
counterexample. -/
theorem C5_witness :
    (extract_user_id_from_invoice ⟨some [49], none, none⟩ = some 1 ∧
      (1 : Int) ≠ 0 ∧
      findUser 1 [⟨1, true⟩] = some ⟨1, true⟩ ∧
      (⟨1, true⟩ : User).hasAccess = true) ∧
    (handle_invoice_payment_failed ⟨some [49], none, none⟩ [⟨1, true⟩] =
        ⟨setAccess 1 false [⟨1, true⟩], 1⟩ ∧
      findUser 1 (handle_invoice_payment_failed ⟨some [49], none, none⟩ [⟨1, true⟩]).db =
        some { id := 1, hasAccess := false } ∧
      handle_failed_payment ⟨some [49], none, none⟩ [⟨1, true⟩] = ⟨[⟨1, true⟩], 0⟩) :=
  ⟨⟨by decide, by decide, by decide, by decide⟩,
    C5_revocation ⟨some [49], none, none⟩ [⟨1, true⟩] 1 ⟨1, true⟩
      (by decide) (by decide) (by decide) (by decide)⟩

/-- C6: for every verified event, the `main.py` dispatcher always returns
the success acknowledgment (fulfillment runs as a background task after the
response), and the `webhook-handler.py` dispatcher returns the success
acknowledgment except on the checkout-completion path, where a False
fulfillment result raises an HTTP 500 instead; the third source file
defines no dispatcher. -/
theorem C6_dispatcher_ack_policy (ev : Event) (db : Store) :
    (stripe_webhook_main (Except.ok ev) db).1 = Response.ok ∧
    (stripe_webhook_wh (Except.ok ev) db).1 =
      (match ev with
       | Event.checkout sid sess? =>
         if (fulfill_service_v2 sid sess? db).result then Response.ok
         else Response.httpError 500 "Failed to fulfill the service"
       | _ => Response.ok) := by
  cases ev <;> simp [stripe_webhook_main, stripe_webhook_wh, apply_ite]

/-- C7: for every paid session whose cartID is missing or empty, fails to
parse as an integer, or parses to an identifier with no matching user, all
three fulfillment variants return the not-fulfilled result, raise nothing
to their caller, leave the store unchanged, and issue no commit. -/
theorem C7_resolution_failure_no_write (sid : String) (s : Session) (db : Store)
    (hpaid : s.payment_status = "paid")
    (h : truthy s.cartID = none ∨
        (∃ cid, truthy s.cartID = some cid ∧ pyToInt? cid = none) ∨
        (∃ cid uid, truthy s.cartID = some cid ∧ pyToInt? cid = some uid ∧
          findUser uid db = none)) :
    fulfill_service_v1 sid (some s) db = ⟨false, db, 0⟩ ∧
    fulfill_service_v2 sid (some s) db = ⟨false, db, 0⟩ ∧
    fulfill_order sid (some s) db = ⟨db, 0⟩ := by
  rcases h with hc | ⟨cid, hc, hp⟩ | ⟨cid, uid, hc, hp, hf⟩
  · exact ⟨by simp [fulfill_service_v1, hpaid, hc],
      by simp [fulfill_service_v2, hpaid, hc],
      by simp [fulfill_order, hpaid, hc]⟩
  · exact ⟨by simp [fulfill_service_v1, hpaid, hc, hp],
      by simp [fulfill_service_v2, hpaid, hc, hp],
      by simp [fulfill_order, hpaid, hc, hp]⟩
  · exact ⟨by simp [fulfill_service_v1, hpaid, hc, hp, hf],
      by simp [fulfill_service_v2, hpaid, hc, hp, hf],
      by simp [fulfill_order, hpaid, hc, hp, hf, is_session_already_fulfilled]⟩

/-- Witness for C7: a paid session with no cartID metadata at all. -/
theorem C7_witness :
    ((⟨"paid", none⟩ : Session).payment_status = "paid" ∧
      truthy (⟨"paid", none⟩ : Session).cartID = none) ∧
    (fulfill_service_v1 "cs_1" (some ⟨"paid", none⟩) [⟨42, false⟩] =
        ⟨false, [⟨42, false⟩], 0⟩ ∧
      fulfill_service_v2 "cs_1" (some ⟨"paid", none⟩) [⟨42, false⟩] =
        ⟨false, [⟨42, false⟩], 0⟩ ∧
      fulfill_order "cs_1" (some ⟨"paid", none⟩) [⟨42, false⟩] = ⟨[⟨42, false⟩], 0⟩) :=
  ⟨⟨by decide, by decide⟩,
    C7_resolution_failure_no_write "cs_1" ⟨"paid", none⟩ [⟨42, false⟩] (by decide)
      (Or.inl (by decide))⟩

/-- C8: whenever `create_payment_link` answers with a created link, the
cartID metadata it embedded is exactly `str(request.user_id)`, the
fulfillment-side parse `int` recovers exactly that user identifier, and
the store is untouched. -/
theorem C8_correlation_roundtrip (req : LinkRequest) (db : Store)
    (pid : String) (cart : List Nat) (db' : Store)
    (h : create_payment_link req db = (LinkResult.created pid cart, db')) :
    cart = pyStrOfInt req.user_id ∧ pyToInt? cart = some req.user_id ∧ db' = db := by
  unfold create_payment_link at h
  cases hf : findUser req.user_id db with
  | none =>
    rw [hf] at h
    simp at h
  | some u =>
    rw [hf] at h
    cases hp : PRICE_IDS req.plan with
    | none =>
      rw [hp] at h
      simp at h
    | some p =>
      rw [hp] at h
      simp only [Prod.mk.injEq, LinkResult.created.injEq] at h
      obtain ⟨⟨hpid, hcart⟩, hdb⟩ := h
      subst hcart
      exact ⟨rfl, pyToInt?_pyStrOfInt req.user_id, hdb.symm⟩

/-- Witness for C8: user 42 requests a bronze link; the embedded cartID is
"42" (codes 52, 50) and parses back to 42. -/
theorem C8_witness :
    create_payment_link ⟨42, "bronze"⟩ [⟨42, false⟩] =
      (LinkResult.created "price_1QhzfBIZhbjcBaqMHUSuptHA" [52, 50], [⟨42, false⟩]) ∧
    ([52, 50] = pyStrOfInt (⟨42, "bronze"⟩ : LinkRequest).user_id ∧
      pyToInt? [52, 50] = some (⟨42, "bronze"⟩ : LinkRequest).user_id ∧
      [(⟨42, false⟩ : User)] = [(⟨42, false⟩ : User)]) :=
  ⟨by decide,
    C8_correlation_roundtrip ⟨42, "bronze"⟩ [⟨42, false⟩]
      "price_1QhzfBIZhbjcBaqMHUSuptHA" [52, 50] [⟨42, false⟩] (by decide)⟩

/-- C9: for every request naming a plan outside the PRICE_IDS table, the
issuer answers 400 with detail "Invalid subscription plan" when the named
user exists and 404 with detail "User not found" when it does not, and in
both cases the store comes back unmodified. -/
theorem C9_invalid_plan (req : LinkRequest) (db : Store)
    (hplan : PRICE_IDS req.plan = none) :
    create_payment_link req db =
      if (findUser req.user_id db).isSome then
        (LinkResult.httpError 400 "Invalid subscription plan", db)
      else (LinkResult.httpError 404 "User not found", db) := by
  unfold create_payment_link
  cases hf : findUser req.user_id db with
  | none => simp [hf]
  | some u => simp [hf, hplan]

/-- Witness for C9: plan "platinum" requested for existing user 42 (400
branch) and over an empty store (404 branch). -/
theorem C9_witness :
    PRICE_IDS "platinum" = none ∧
    create_payment_link ⟨42, "platinum"⟩ [⟨42, false⟩] =
      (if (findUser (⟨42, "platinum"⟩ : LinkRequest).user_id [⟨42, false⟩]).isSome then
        (LinkResult.httpError 400 "Invalid subscription plan", [⟨42, false⟩])
      else (LinkResult.httpError 404 "User not found", [⟨42, false⟩])) ∧
    create_payment_link ⟨42, "platinum"⟩ [] =
      (if (findUser (⟨42, "platinum"⟩ : LinkRequest).user_id []).isSome then
        (LinkResult.httpError 400 "Invalid subscription plan", [])
      else (LinkResult.httpError 404 "User not found", [])) :=
  ⟨by decide,
    C9_invalid_plan ⟨42, "platinum"⟩ [⟨42, false⟩] (by decide),
    C9_invalid_plan ⟨42, "platinum"⟩ [] (by decide)⟩

/-- C10: for every invoice whose metadata has no user_id that parses as an
integer, resolution yields no user (the subscription/customer fallback is
inert) and both `webhook-handler.py` invoice handlers return with the
store untouched and no commit; moreover resolution never reads the cartID
metadata or the subscription field of any invoice. -/
theorem C10_invoice_resolution_frame (inv : Invoice) (db : Store)
    (h : (truthy inv.user_id).bind pyToInt? = none) :
    extract_user_id_from_invoice inv = none ∧
    handle_invoice_payment_succeeded inv db = ⟨db, 0⟩ ∧
    handle_invoice_payment_failed inv db = ⟨db, 0⟩ ∧
    (∀ (inv' : Invoice) (c : Option (List Nat)),
      extract_user_id_from_invoice { inv' with cartID := c } =
        extract_user_id_from_invoice inv') ∧
    (∀ (inv' : Invoice) (sub : Option String),
      extract_user_id_from_invoice { inv' with subscription := sub } =
        extract_user_id_from_invoice inv') := by
  have hex : extract_user_id_from_invoice inv = none := by
    cases ht : truthy inv.user_id with
    | none => simp [extract_user_id_from_invoice, ht]
    | some s =>
      rw [ht] at h
      simp only [Option.some_bind] at h
      simp [extract_user_id_from_invoice, ht, h]
  refine ⟨hex, ?_, ?_, ?_, ?_⟩
  · simp [handle_invoice_payment_succeeded, truthyInt, hex]
  · simp [handle_invoice_payment_failed, truthyInt, hex]
  · intro inv' c
    rfl
  · intro inv' sub
    rfl

/-- Witness for C10: an invoice carrying a cartID "42" and a subscription
id but no user_id metadata, over a store holding user 42 with access. -/
theorem C10_witness :
    (truthy (⟨none, some [52, 50], some "sub_1"⟩ : Invoice).user_id).bind pyToInt? = none ∧
    (extract_user_id_from_invoice ⟨none, some [52, 50], some "sub_1"⟩ = none ∧
      handle_invoice_payment_succeeded ⟨none, some [52, 50], some "sub_1"⟩ [⟨42, true⟩] =
        ⟨[⟨42, true⟩], 0⟩ ∧
      handle_invoice_payment_failed ⟨none, some [52, 50], some "sub_1"⟩ [⟨42, true⟩] =
        ⟨[⟨42, true⟩], 0⟩ ∧
      (∀ (inv' : Invoice) (c : Option (List Nat)),
        extract_user_id_from_invoice { inv' with cartID := c } =
          extract_user_id_from_invoice inv') ∧
      (∀ (inv' : Invoice) (sub : Option String),
        extract_user_id_from_invoice { inv' with subscription := sub } =
          extract_user_id_from_invoice inv')) :=
  ⟨by decide,
    C10_invoice_resolution_frame ⟨none, some [52, 50], some "sub_1"⟩ [⟨42, true⟩]
      (by decide)⟩
